import Mathlib

/-!
# Verification of the yast-pkg-bindings callback bridge

Shallow embedding of the callback-marshalling layer of yast-pkg-bindings
(`src/Callbacks.cc`, `src/Resolvable.cc` and the PkgFunctions commit
orchestrator).  Each definition is translated from the corresponding C++
function; theorems settle the specification claims about them.
-/

namespace PkgBindings

/-! ## Basic data of the bridge -/

/-- `ZyppRecipients::MediaChangeSensitivity` (Callbacks.h): the process-wide
`_silent_probing` flag has three states. -/
inductive MediaChangeSensitivity
  | MEDIA_CHANGE_FULL
  | MEDIA_CHANGE_DISABLE
  | MEDIA_CHANGE_OPTIONALFILE
deriving DecidableEq, Repr

/-- `zypp::media::MediaChangeReport::Action`. -/
inductive MediaChangeAction
  | ABORT
  | RETRY
  | IGNORE
  | IGNORE_ID
  | CHANGE_URL
  | EJECT
deriving DecidableEq, Repr

/-- `zypp::media::MediaChangeReport::Error`. -/
inductive MediaChangeError
  | NO_ERROR
  | NOT_FOUND
  | IOERR
  | INVALID
  | WRONG
  | IO_SOFT
deriving DecidableEq, Repr

/-- A `zypp::Url` is modelled by its string form; the bridge only stores,
compares and reports URLs. -/
structure Url where
  str : String
deriving DecidableEq, Repr

/-! ## Progress throttling

`Callbacks.cc` keeps, per numeric progress stream, the pair
`(last_reported, last_reported_time)` and the constant
`static const time_t callback_timeout = 3;`. -/

/-- `static const time_t callback_timeout = 3;` (Callbacks.cc line 59). -/
def callback_timeout : Int := 3

/-- Per-stream throttle state: `int last_reported; time_t last_reported_time;`. -/
structure ThrottleState where
  last_reported : Int
  last_reported_time : Int
deriving DecidableEq, Repr

/-- Outcome of one `progress(value)` call: whether the registered handler was
invoked, and the throttle state afterwards. -/
structure ProgressOutcome where
  invoked : Bool
  state : ThrottleState
deriving DecidableEq, Repr

/-- The reporting condition shared by the numeric progress streams
(Callbacks.cc lines 264, 527, 762):
`value - last_reported >= 5 || last_reported - value >= 5 || value == 100 ||
current_time - last_reported_time >= callback_timeout`. -/
def throttleCond (st : ThrottleState) (value now : Int) : Bool :=
  value - st.last_reported ≥ 5 || st.last_reported - value ≥ 5 ||
    value = 100 || now - st.last_reported_time ≥ callback_timeout

/-- `InstallPkgReceive::progress` (Callbacks.cc lines 258-279): when the
`CB_ProgressPackage` handler is set and the throttle condition holds, the
handler is evaluated and `last_reported`/`last_reported_time` are updated;
otherwise nothing changes. -/
def installPkgProgress (handlerSet : Bool) (st : ThrottleState)
    (value now : Int) : ProgressOutcome :=
  if handlerSet && throttleCond st value now then
    { invoked := true, state := { last_reported := value, last_reported_time := now } }
  else
    { invoked := false, state := st }

/-- `DownloadResolvableReceive::progress` (Callbacks.cc lines 523-536), the
package provide/download stream: same throttle as `installPkgProgress`. -/
def downloadResolvableProgress (handlerSet : Bool) (st : ThrottleState)
    (value now : Int) : ProgressOutcome :=
  if handlerSet && throttleCond st value now then
    { invoked := true, state := { last_reported := value, last_reported_time := now } }
  else
    { invoked := false, state := st }

/-- `DownloadProgressReceive::progress` (Callbacks.cc lines 756-774), the
generic download stream: same throttle as `installPkgProgress`. -/
def downloadProgressProgress (handlerSet : Bool) (st : ThrottleState)
    (value now : Int) : ProgressOutcome :=
  if handlerSet && throttleCond st value now then
    { invoked := true, state := { last_reported := value, last_reported_time := now } }
  else
    { invoked := false, state := st }

/-- `InstallPkgReceive::start` initializes the throttle counters
(Callbacks.cc lines 217-219): `last_reported = 0; last_reported_time = time(NULL);`. -/
def installPkgStartThrottle (now : Int) : ThrottleState :=
  { last_reported := 0, last_reported_time := now }

/-- Feed a whole list of progress values (at a fixed wall-clock time `now`)
through `installPkgProgress` and count the handler invocations. -/
def installRunCount (handlerSet : Bool) (st : ThrottleState) (now : Int) :
    List Int → Nat
  | [] => 0
  | v :: vs =>
    let o := installPkgProgress handlerSet st v now
    (if o.invoked then 1 else 0) + installRunCount handlerSet o.state now vs

/-- The monotonic synthetic stream 0,1,2,…,100. -/
def seq0to100 : List Int := (List.range 101).map (fun n => (n : Int))

/-! ## Media change and the redirect map

`Callbacks.cc` keeps the process-wide
`std::map<zypp::Url, std::map<unsigned, zypp::Url>> redirect_map`.
`std::map` lookups/updates are modelled by association lists with unique keys
(`insert` replaces an existing binding). -/

/-- The inner `MediaMap` (`std::map<unsigned, zypp::Url>`). -/
abbrev MediaMap := List (Nat × Url)

/-- The outer `RedirectMap` (`std::map<zypp::Url, MediaMap>`). -/
abbrev RedirectMap := List (Url × MediaMap)

/-- `std::map::find` on a `MediaMap`. -/
def mediaMapFind (m : MediaMap) (k : Nat) : Option Url :=
  match m with
  | [] => none
  | (k2, v) :: rest => if k2 = k then some v else mediaMapFind rest k

/-- `std::map::operator[] = v` on a `MediaMap`: replace or append. -/
def mediaMapInsert (m : MediaMap) (k : Nat) (v : Url) : MediaMap :=
  match m with
  | [] => [(k, v)]
  | (k2, v2) :: rest =>
    if k2 = k then (k, v) :: rest else (k2, v2) :: mediaMapInsert rest k v

/-- `std::map::find` on the `RedirectMap`. -/
def redirectMapFind (m : RedirectMap) (k : Url) : Option MediaMap :=
  match m with
  | [] => none
  | (k2, v) :: rest => if k2 = k then some v else redirectMapFind rest k

/-- `std::map::operator[] = v` on the `RedirectMap`: replace or append. -/
def redirectMapInsert (m : RedirectMap) (k : Url) (v : MediaMap) : RedirectMap :=
  match m with
  | [] => [(k, v)]
  | (k2, v2) :: rest =>
    if k2 = k then (k, v) :: rest else (k2, v2) :: redirectMapInsert rest k v

/-- `zypp::str::strtonum<unsigned int>`: parse the leading decimal digits
(0 when none). -/
def strtonum (s : String) : Nat :=
  (s.data.takeWhile Char.isDigit).foldl (fun acc c => acc * 10 + (c.toNat - 48)) 0

/-- Result of one `MediaChangeReceive::requestMedia` call: the decoded action,
whether the `CB_MediaChange` handler was evaluated, the redirect map
afterwards, the value of the by-reference `url` parameter on return, the
`dev_current` output when set, and the URL shown to the handler. -/
structure MediaChangeResult where
  action : MediaChangeAction
  handlerInvoked : Bool
  redirects : RedirectMap
  urlOut : Url
  devCurrent : Option Nat
  reportUrl : Option Url
deriving DecidableEq, Repr

/-- `MediaChangeReceive::requestMedia` (Callbacks.cc lines 1015-1135).
`parse` models the `zypp::Url` constructor (`none` = the constructor throws);
`handler` is `some reply` when `CB_MediaChange` is registered and
`evaluateStr()` returns `reply`, `none` when unset; `libdefault` is the action
of the parent class `zypp::media::MediaChangeReport::requestMedia`.
The branch order and the redirect-map update mirror the C++ exactly; in
particular the C++ reassigns the reference parameter `url` to the freshly
parsed URL before indexing `redirect_map` with it. -/
def requestMedia (parse : String → Option Url) (libdefault : MediaChangeAction)
    (silent : MediaChangeSensitivity) (rm : RedirectMap) (url : Url)
    (mediumNr : Nat) (error : MediaChangeError) (handler : Option String) :
    MediaChangeResult :=
  if silent = .MEDIA_CHANGE_DISABLE then
    ⟨.ABORT, false, rm, url, none, none⟩
  else if silent = .MEDIA_CHANGE_OPTIONALFILE ∧ error = .NOT_FOUND then
    ⟨.ABORT, false, rm, url, none, none⟩
  else
    match handler with
    | none => ⟨libdefault, false, rm, url, none, none⟩
    | some ret =>
      let report_url :=
        match redirectMapFind rm url with
        | some mm =>
          match mediaMapFind mm mediumNr with
          | some ru => ru
          | none => url
        | none => url
      if ret = "" then ⟨.RETRY, true, rm, url, none, some report_url⟩
      else if ret = "I" then ⟨.IGNORE_ID, true, rm, url, none, some report_url⟩
      else if ret = "C" then ⟨.ABORT, true, rm, url, none, some report_url⟩
      else if ret = "E" then ⟨.EJECT, true, rm, url, none, some report_url⟩
      else if ret.length > 1 ∧ ret.data.head? = some 'E' then
        ⟨.EJECT, true, rm, url, some (strtonum (ret.drop 1)), some report_url⟩
      else if ret = "S" then ⟨.IGNORE, true, rm, url, none, some report_url⟩
      else
        match parse ret with
        | some newUrl =>
          let source_redir := (redirectMapFind rm newUrl).getD []
          let source_redir2 := mediaMapInsert source_redir mediumNr newUrl
          ⟨.CHANGE_URL, true, redirectMapInsert rm newUrl source_redir2,
            newUrl, none, some report_url⟩
        | none => ⟨.RETRY, true, rm, url, none, some report_url⟩

/-! ## Silent probing (source probe start/finish, download finish) -/

/-- `ProbeSourceReceive::start` (Callbacks.cc line 1263) sets
`_silent_probing = MEDIA_CHANGE_DISABLE`; this is the new flag value as a
function of the previous one. -/
def probeSourceStartSilent (_prev : MediaChangeSensitivity) :
    MediaChangeSensitivity :=
  .MEDIA_CHANGE_DISABLE

/-- `ProbeSourceReceive::finish` (Callbacks.cc line 1325) sets
`_silent_probing = MEDIA_CHANGE_FULL`; this is the new flag value as a
function of the previous one. -/
def probeSourceFinishSilent (_prev : MediaChangeSensitivity) :
    MediaChangeSensitivity :=
  .MEDIA_CHANGE_FULL

/-- `zypp::media::DownloadProgressReport::Error` (only the identity of
`NO_ERROR` matters to the bridge). -/
inductive DownloadError
  | NO_ERROR
  | NOT_FOUND
  | IOERR
  | ACCESS_DENIED
  | ERROR
deriving DecidableEq, Repr

/-- `DownloadProgressReceive::finish` (Callbacks.cc lines 802-821): the error
code passed to the `CB_DoneDownload` handler (`none` when the handler is not
registered).  Errors are masked to `NO_ERROR` while `_silent_probing` is
`MEDIA_CHANGE_DISABLE` or `MEDIA_CHANGE_OPTIONALFILE`. -/
def downloadProgressFinish (silent : MediaChangeSensitivity)
    (error : DownloadError) (handlerSet : Bool) : Option DownloadError :=
  let err :=
    if silent = .MEDIA_CHANGE_DISABLE ∨ silent = .MEDIA_CHANGE_OPTIONALFILE then
      DownloadError.NO_ERROR
    else error
  if handlerSet then some err else none

/-! ## Problem reports (install / remove / download / script / source create)

The reply of a problem handler is a string; each adapter decodes its own
token set and otherwise falls back somewhere.  `handler = some reply` models
a registered handler whose `evaluateStr()` (or `evaluateSymbol()`) returned
`reply`; `libdefault` models the action of the zypp parent-class `problem`
implementation. -/

/-- The action enums of the various problem reports all consist of
`RETRY`/`ABORT`/`IGNORE` as far as the bridge distinguishes them. -/
inductive ProblemAction
  | RETRY
  | ABORT
  | IGNORE
deriving DecidableEq, Repr

/-- Outcome of one `problem` callback: decoded action, whether the registered
handler was evaluated, and whether the adapter wrote a log message about an
unrecognized reply. -/
structure ProblemOutcome where
  action : ProblemAction
  handlerInvoked : Bool
  loggedUnknownReply : Bool
deriving DecidableEq, Repr

/-- `zypp::target::rpm::InstallResolvableReport::RpmLevel`. -/
inductive RpmLevel
  | RPM
  | RPM_NODEPS
  | RPM_FORCE
  | RPM_NODEPS_FORCE
deriving DecidableEq, Repr

/-- Severity rank of an `RpmLevel`; `RPM_NODEPS_FORCE` is the maximal
(forced, no-dependency-check) level. -/
def RpmLevel.rank : RpmLevel → Nat
  | .RPM => 0
  | .RPM_NODEPS => 1
  | .RPM_FORCE => 2
  | .RPM_NODEPS_FORCE => 3

/-- `zypp::target::rpm::InstallResolvableReport::Error` (only the identity of
`NO_ERROR` matters to the bridge). -/
inductive InstallError
  | NO_ERROR
  | NOT_INSTALLED
  | IOERR
  | INVALID
deriving DecidableEq, Repr

/-- `InstallPkgReceive::problem` (Callbacks.cc lines 281-315): any level other
than `RPM_NODEPS_FORCE` returns `ABORT` without consulting the handler; at
`RPM_NODEPS_FORCE` the `CB_DonePackage` handler decodes `"R"`/`"C"` and maps
any other reply to `IGNORE` (without logging it). -/
def installPkgProblem (handler : Option String) (libdefault : ProblemAction)
    (level : RpmLevel) : ProblemOutcome :=
  if level ≠ .RPM_NODEPS_FORCE then ⟨.ABORT, false, false⟩
  else
    match handler with
    | some ret =>
      if ret = "R" then ⟨.RETRY, true, false⟩
      else if ret = "C" then ⟨.ABORT, true, false⟩
      else ⟨.IGNORE, true, false⟩
    | none => ⟨libdefault, false, false⟩

/-- `InstallPkgReceive::finish` (Callbacks.cc lines 317-331): with a real
error at a level other than `RPM_NODEPS_FORCE` the finish is skipped
entirely; otherwise the `CB_DonePackage` handler (when set) receives the
error (masked to `NO_ERROR` below the forced level).  Returns the error code
passed to the handler, `none` when no handler is invoked. -/
def installPkgFinish (handlerSet : Bool) (error : InstallError)
    (level : RpmLevel) : Option InstallError :=
  if error ≠ .NO_ERROR ∧ level ≠ .RPM_NODEPS_FORCE then none
  else if handlerSet then
    some (if level = .RPM_NODEPS_FORCE then error else .NO_ERROR)
  else none

/-- `RemovePkgReceive::problem` (Callbacks.cc lines 383-408): `"R"`/`"C"`
decoded, any other reply mapped to `IGNORE` without logging. -/
def removePkgProblem (handler : Option String) (libdefault : ProblemAction) :
    ProblemOutcome :=
  match handler with
  | some ret =>
    if ret = "R" then ⟨.RETRY, true, false⟩
    else if ret = "C" then ⟨.ABORT, true, false⟩
    else ⟨.IGNORE, true, false⟩
  | none => ⟨libdefault, false, false⟩

/-- `DownloadResolvableReceive::problem` (Callbacks.cc lines 538-561):
`"R"`/`"C"`/`"I"` decoded, any other reply falls through to the parent-class
default without a log message. -/
def downloadResolvableProblem (handler : Option String)
    (libdefault : ProblemAction) : ProblemOutcome :=
  match handler with
  | some ret =>
    if ret = "R" then ⟨.RETRY, true, false⟩
    else if ret = "C" then ⟨.ABORT, true, false⟩
    else if ret = "I" then ⟨.IGNORE, true, false⟩
    else ⟨libdefault, true, false⟩
  | none => ⟨libdefault, false, false⟩

/-- `DownloadProgressReceive::problem` (Callbacks.cc lines 776-800): the reply
is always logged (`y2milestone("DoneProvide result: ...")`), `"R"`/`"C"`/`"I"`
decoded, anything else falls through to the parent-class default. -/
def downloadProgressProblem (handler : Option String)
    (libdefault : ProblemAction) : ProblemOutcome :=
  match handler with
  | some ret =>
    if ret = "R" then ⟨.RETRY, true, true⟩
    else if ret = "C" then ⟨.ABORT, true, true⟩
    else if ret = "I" then ⟨.IGNORE, true, true⟩
    else ⟨libdefault, true, true⟩
  | none => ⟨libdefault, false, false⟩

/-- `ScriptExecReceive::problem` (Callbacks.cc lines 864-889): `"A"`/`"I"`/
`"R"` decoded; an unknown reply is logged (`y2error("Unknown return value")`)
and falls through to the parent-class default. -/
def scriptExecProblem (handler : Option String) (libdefault : ProblemAction) :
    ProblemOutcome :=
  match handler with
  | some ret =>
    if ret = "A" then ⟨.ABORT, true, false⟩
    else if ret = "I" then ⟨.IGNORE, true, false⟩
    else if ret = "R" then ⟨.RETRY, true, false⟩
    else ⟨libdefault, true, true⟩
  | none => ⟨libdefault, false, false⟩

/-- `SourceCreateReceive::problem` (Callbacks.cc lines 1214-1237): the symbols
`"ABORT"`/`"RETRY"` are decoded; an unexpected symbol is logged
(`y2error("Unexpected symbol ...")`) and falls through to the parent-class
default. -/
def sourceCreateProblem (handler : Option String)
    (libdefault : ProblemAction) : ProblemOutcome :=
  match handler with
  | some ret =>
    if ret = "ABORT" then ⟨.ABORT, true, false⟩
    else if ret = "RETRY" then ⟨.RETRY, true, false⟩
    else ⟨libdefault, true, true⟩
  | none => ⟨libdefault, false, false⟩

/-! ## Selection state machine: `ResolvableNeutral`

`Resolvable.cc` iterates the pool items of a kind and calls
`status().resetTransact(whoWantsIt)` (plus `resetTransact(USER)` when
`force`).  `zypp::ResStatus` and the constant `whoWantsIt` live outside this
repository's sources; they are modelled from the spec. -/

/-- `zypp::ResStatus::TransactByValue` (authority levels), ordered by
precedence. -/
inductive TransactByValue
  | SOLVER
  | APPL_LOW
  | APPL_HIGH
  | USER
deriving DecidableEq, Repr

/-- Precedence rank of an authority (`USER` highest). -/
def TransactByValue.rank : TransactByValue → Nat
  | .SOLVER => 0
  | .APPL_LOW => 1
  | .APPL_HIGH => 2
  | .USER => 3

/-- Modelled from the spec: the constant `whoWantsIt` used by the bindings as
their acting authority is not under `src/`; the doc comment of
`ResolvableNeutral` ("default is APPL_HIGH") fixes it to the high application
level. -/
def whoWantsIt : TransactByValue := .APPL_HIGH

/-- Modelled from the spec: `zypp::ResStatus` of a pool item, reduced to the
transact flag and the authority that set it ("the actor that last set an
item's transact/lock flag"). -/
structure ResStatus where
  transact : Bool
  transactedBy : TransactByValue
deriving DecidableEq, Repr

/-- Modelled from the spec: `zypp::ResStatus::resetTransact(causer)` (external
library code).  Per the spec's authority rule ("higher-precedence
authorities' marks survive lower-precedence resets"), clearing succeeds iff
the flag is unset or the causer's precedence is at least that of the setter;
a blocked reset returns `false` and leaves the status unchanged. -/
def resetTransact (causer : TransactByValue) (st : ResStatus) :
    Bool × ResStatus :=
  if st.transact then
    if st.transactedBy.rank ≤ causer.rank then
      (true, { st with transact := false })
    else (false, st)
  else (true, st)

/-- `zypp::Resolvable::Kind` as used by the bindings. -/
inductive ResKind
  | package
  | patch
  | pattern
  | product
  | selection
  | srcpackage
deriving DecidableEq, Repr

/-- A pool item as seen by `ResolvableNeutral`: kind, name, status. -/
structure PoolItem where
  kind : ResKind
  name : String
  status : ResStatus
deriving DecidableEq, Repr

/-- The per-item filter of the `ResolvableNeutral` loop
(Resolvable.cc line 181): the item is iterated by kind and touched when
`name.empty() || (*it)->name() == name`. -/
def neutralMatches (kind : ResKind) (name : String) (it : PoolItem) : Bool :=
  it.kind = kind && (name = "" || it.name = name)

/-- The status transition `ResolvableNeutral` applies to one matching item
(Resolvable.cc lines 183-192): `resetTransact(whoWantsIt)`, then, if `force`,
`resetTransact(USER)`.  Returns the new item and whether both calls
succeeded. -/
def neutralStep (force : Bool) (it : PoolItem) : PoolItem × Bool :=
  let r1 := resetTransact whoWantsIt it.status
  let r2 := if force then resetTransact .USER r1.2 else (true, r1.2)
  ({ it with status := r2.2 }, r1.1 && r2.1)

/-- The per-item effect of `ResolvableNeutral` on an arbitrary pool item:
matching items get `neutralStep`, others are untouched. -/
def neutralUpdate (kind : ResKind) (name : String) (force : Bool)
    (it : PoolItem) : PoolItem :=
  if neutralMatches kind name it then (neutralStep force it).1 else it

/-- `PkgModuleFunctions::ResolvableNeutral` (Resolvable.cc lines 143-202),
restricted to the pool loop: returns the updated pool and the boolean result
(`true` iff no `resetTransact` call was refused). -/
def resolvableNeutral (pool : List PoolItem) (kind : ResKind) (name : String)
    (force : Bool) : List PoolItem × Bool :=
  match pool with
  | [] => ([], true)
  | it :: rest =>
    let tail := resolvableNeutral rest kind name force
    if neutralMatches kind name it then
      let r := neutralStep force it
      (r.1 :: tail.1, r.2 && tail.2)
    else (it :: tail.1, tail.2)

/-! ## Commit orchestration: `PkgCommit`

`PkgFunctions::PkgCommit` (pkg-bindings) invokes `zypp_ptr()->commit(policy)`
and converts the outcome; the engine outcome is a parameter of the
embedding. -/

/-- Data of a resolvable needed to report a remaining item. -/
structure ResInfo where
  name : String
  kind : ResKind
  arch : String
  version : String
deriving DecidableEq, Repr

/-- `zypp::ZYpp::CommitResult`: `_result`, `_errors`, `_remaining`,
`_srcremaining`. -/
structure ZyppCommitResult where
  result : Int
  errors : List ResInfo
  remaining : List ResInfo
  srcremaining : List ResInfo
deriving DecidableEq, Repr

/-- The three ways `zypp_ptr()->commit(policy)` can come back to `PkgCommit`:
normal return, `zypp::target::TargetAbortedException`, or another
`zypp::Exception`. -/
inductive CommitOutcome
  | ok (r : ZyppCommitResult)
  | targetAborted
  | exceptionFailed (msg : String)

/-- YCP values as far as `PkgCommit` builds them. -/
inductive YVal
  | i : Int → YVal
  | s : String → YVal
  | sym : String → YVal
  | list : List YVal → YVal
  | map : List (YVal × YVal) → YVal
  | void : YVal
  | err : String → YVal

/-- Kind classification of a remaining item (part_001 lines 2173-2180):
product, pattern and patch are named, everything else reports as
`package`. -/
def remainingKindSymbol : ResKind → String
  | .product => "product"
  | .pattern => "pattern"
  | .patch => "patch"
  | _ => "package"

/-- The map built for one remaining item (part_001 lines 2170-2185). -/
def remainingMap (r : ResInfo) : YVal :=
  .map [(.s "name", .s r.name),
        (.s "kind", .sym (remainingKindSymbol r.kind)),
        (.s "arch", .s r.arch),
        (.s "version", .s r.version)]

/-- Observable outcome of one `PkgFunctions::PkgCommit` call: the YCP return
value and the side effects performed (repository release, base-product
symlink refresh, last-error record, reset of the last-reported source). -/
structure PkgCommitEffects where
  retval : YVal
  sourceReleaseAllCalled : Bool
  baseProductSymlinkAttempted : Bool
  lastErrorSet : Bool
  lastReportedReset : Bool

/-- `PkgFunctions::PkgCommit` (part_001 lines 2111-2197).  A negative media
number is a usage error; the last-reported source/medium are reset before the
engine call; a `TargetAbortedException` returns the one-element list `[-1]`
immediately; any other engine exception records the last error and returns
void; a normal return releases all repositories, attempts the base-product
symlink and builds the report
`[result, failed, remaining, srcremaining]`. -/
def PkgCommit (medianr : Int) (outcome : CommitOutcome) : PkgCommitEffects :=
  if medianr < 0 then
    ⟨.err "Bad args to Pkg::PkgCommit", false, false, false, false⟩
  else
    match outcome with
    | .targetAborted =>
      ⟨.list [.i (-1)], false, false, false, true⟩
    | .exceptionFailed _ =>
      ⟨.void, false, false, true, true⟩
    | .ok r =>
      ⟨.list [.i r.result,
              .list (r.errors.map (fun e => .s e.name)),
              .list (r.remaining.map remainingMap),
              .list (r.srcremaining.map (fun e => .s e.name))],
       true, true, false, true⟩

/-! ## Theorems settling the claims -/

/-- The throttle condition, stated over the specification's arithmetic:
report iff `|value - last| ≥ 5`, or `value = 100`, or at least 3 seconds
elapsed. -/
theorem throttleCond_iff (st : ThrottleState) (value now : Int) :
    throttleCond st value now = true ↔
      (5 ≤ |value - st.last_reported| ∨ value = 100 ∨
        3 ≤ now - st.last_reported_time) := by
  have h : throttleCond st value now = true ↔
      (5 ≤ value - st.last_reported ∨ 5 ≤ st.last_reported - value ∨
        value = 100 ∨ 3 ≤ now - st.last_reported_time) := by
    simp [throttleCond, callback_timeout]
    omega
  rw [h, le_abs]
  constructor
  · rintro (h1 | h1 | h1 | h1)
    · exact Or.inl (Or.inl h1)
    · exact Or.inl (Or.inr (by omega))
    · exact Or.inr (Or.inl h1)
    · exact Or.inr (Or.inr h1)
  · rintro ((h1 | h1) | h1 | h1)
    · exact Or.inl h1
    · exact Or.inr (Or.inl (by omega))
    · exact Or.inr (Or.inr (Or.inl h1))
    · exact Or.inr (Or.inr (Or.inr h1))

/-- C2: for each numeric progress stream (package install, package
provide/download, generic download), a registered handler is invoked on a new
value iff `|value - lastReportedValue| ≥ 5`, or `value = 100`, or at least 3
seconds elapsed since `lastReportedTime`; on invocation both throttle fields
are set to the new value and the current time, on suppression both are left
unchanged (the three streams share one throttle). -/
theorem C2_progress_throttle :
    ∀ (st : ThrottleState) (value now : Int),
      ((installPkgProgress true st value now).invoked = true ↔
        (5 ≤ |value - st.last_reported| ∨ value = 100 ∨
          3 ≤ now - st.last_reported_time)) ∧
      ((installPkgProgress true st value now).invoked = true →
        (installPkgProgress true st value now).state =
          { last_reported := value, last_reported_time := now }) ∧
      ((installPkgProgress true st value now).invoked = false →
        (installPkgProgress true st value now).state = st) ∧
      downloadResolvableProgress true st value now =
        installPkgProgress true st value now ∧
      downloadProgressProgress true st value now =
        installPkgProgress true st value now ∧
      (installPkgProgress false st value now).invoked = false ∧
      (installPkgProgress false st value now).state = st := by
  intro st value now
  by_cases hc : throttleCond st value now = true
  · refine ⟨?_, ?_, ?_, ?_, ?_, ?_, ?_⟩ <;>
      simp [installPkgProgress, downloadResolvableProgress,
        downloadProgressProgress, hc, ← throttleCond_iff]
  · refine ⟨?_, ?_, ?_, ?_, ?_, ?_, ?_⟩ <;>
      simp [installPkgProgress, downloadResolvableProgress,
        downloadProgressProgress, hc, ← throttleCond_iff]

/-- C2 witness: with `last_reported = 0` at time 0, the value 5 is reported
and the throttle state is updated to it. -/
theorem C2_progress_throttle_witness :
    (installPkgProgress true { last_reported := 0, last_reported_time := 0 }
        5 0).invoked = true ∧
    (installPkgProgress true { last_reported := 0, last_reported_time := 0 }
        5 0).state = { last_reported := 5, last_reported_time := 0 } := by
  refine ⟨?_, ?_⟩
  · exact (C2_progress_throttle { last_reported := 0, last_reported_time := 0 }
      5 0).1.mpr (Or.inl (by decide))
  · exact (C2_progress_throttle { last_reported := 0, last_reported_time := 0 }
      5 0).2.1 (by decide)

/-- C3: an install problem report at any RPM level below `RPM_NODEPS_FORCE`
returns `ABORT` to the engine without invoking the registered handler, and a
finish for such an attempt with a real error invokes no `DonePackage`
handler. -/
theorem C3_low_severity_problem_aborts :
    ∀ (handler : Option String) (libdefault : ProblemAction)
      (level : RpmLevel) (error : InstallError) (handlerSet : Bool),
      level.rank < RpmLevel.RPM_NODEPS_FORCE.rank →
      ((installPkgProblem handler libdefault level).handlerInvoked = false ∧
        (installPkgProblem handler libdefault level).action = .ABORT) ∧
      (error ≠ .NO_ERROR → installPkgFinish handlerSet error level = none) := by
  intro handler libdefault level error handlerSet hlt
  have hne : level ≠ .RPM_NODEPS_FORCE := by
    intro h
    subst h
    simp [RpmLevel.rank] at hlt
  constructor
  · simp [installPkgProblem, hne]
  · intro herr
    simp [installPkgFinish, hne, herr]

/-- C3 witness: at level `RPM` with reply `"R"` the handler is skipped, the
action is `ABORT`, and a finish carrying an `IO` error is suppressed. -/
theorem C3_low_severity_problem_aborts_witness :
    ((installPkgProblem (some "R") ProblemAction.RETRY
        RpmLevel.RPM).handlerInvoked = false ∧
      (installPkgProblem (some "R") ProblemAction.RETRY
        RpmLevel.RPM).action = .ABORT) ∧
    ( InstallError.IOERR ≠ InstallError.NO_ERROR →
      installPkgFinish true InstallError.IOERR RpmLevel.RPM = none) :=
  C3_low_severity_problem_aborts (some "R") .RETRY .RPM .IOERR true (by decide)

/-- C4: a media-change request is answered `ABORT` without evaluating the
registered handler whenever `_silent_probing` is `MEDIA_CHANGE_DISABLE`, and
likewise for a `NOT_FOUND` error when it is `MEDIA_CHANGE_OPTIONALFILE`. -/
theorem C4_media_change_suppressed :
    ∀ (parse : String → Option Url) (libdefault : MediaChangeAction)
      (rm : RedirectMap) (url : Url) (mediumNr : Nat)
      (error : MediaChangeError) (handler : Option String),
      ((requestMedia parse libdefault .MEDIA_CHANGE_DISABLE rm url mediumNr
          error handler).action = .ABORT ∧
        (requestMedia parse libdefault .MEDIA_CHANGE_DISABLE rm url mediumNr
          error handler).handlerInvoked = false) ∧
      ((requestMedia parse libdefault .MEDIA_CHANGE_OPTIONALFILE rm url
          mediumNr .NOT_FOUND handler).action = .ABORT ∧
        (requestMedia parse libdefault .MEDIA_CHANGE_OPTIONALFILE rm url
          mediumNr .NOT_FOUND handler).handlerInvoked = false) := by
  intro parse libdefault rm url mediumNr error handler
  refine ⟨⟨?_, ?_⟩, ⟨?_, ?_⟩⟩ <;> rfl

/-- C5: `PkgCommit` with a non-negative media number returns the one-element
list `[-1]` (a negative first element) on an engine abort with no repository
release, no symlink refresh and no last-error record; records the last error
and returns void on any other engine exception, again with no release or
symlink; and on normal return releases the repositories, attempts the
base-product symlink and builds `[result, failed, remaining,
srcremaining]`. -/
theorem C5_pkgcommit_orchestration :
    ∀ medianr : Int, 0 ≤ medianr →
      ((PkgCommit medianr .targetAborted).retval = .list [.i (-1)] ∧
        (-1 : Int) < 0 ∧
        (PkgCommit medianr .targetAborted).sourceReleaseAllCalled = false ∧
        (PkgCommit medianr
          .targetAborted).baseProductSymlinkAttempted = false ∧
        (PkgCommit medianr .targetAborted).lastErrorSet = false) ∧
      (∀ msg : String,
        (PkgCommit medianr (.exceptionFailed msg)).retval = .void ∧
        (PkgCommit medianr (.exceptionFailed msg)).lastErrorSet = true ∧
        (PkgCommit medianr
          (.exceptionFailed msg)).sourceReleaseAllCalled = false ∧
        (PkgCommit medianr
          (.exceptionFailed msg)).baseProductSymlinkAttempted = false) ∧
      (∀ r : ZyppCommitResult,
        (PkgCommit medianr (.ok r)).sourceReleaseAllCalled = true ∧
        (PkgCommit medianr (.ok r)).baseProductSymlinkAttempted = true ∧
        (PkgCommit medianr (.ok r)).retval =
          .list [.i r.result,
                 .list (r.errors.map (fun e => .s e.name)),
                 .list (r.remaining.map remainingMap),
                 .list (r.srcremaining.map (fun e => .s e.name))]) := by
  intro medianr h
  have hn : ¬ medianr < 0 := not_lt.mpr h
  refine ⟨?_, ?_, ?_⟩ <;> simp [PkgCommit, hn]

/-- C5 witness: at media number 0 the abort outcome returns `[-1]` with no
further side effects. -/
theorem C5_pkgcommit_orchestration_witness :
    (PkgCommit 0 .targetAborted).retval = .list [.i (-1)] ∧
    (-1 : Int) < 0 ∧
    (PkgCommit 0 .targetAborted).sourceReleaseAllCalled = false ∧
    (PkgCommit 0 .targetAborted).baseProductSymlinkAttempted = false ∧
    (PkgCommit 0 .targetAborted).lastErrorSet = false :=
  (C5_pkgcommit_orchestration 0 (by decide)).1

/-- C9: while `_silent_probing` is `MEDIA_CHANGE_DISABLE` or
`MEDIA_CHANGE_OPTIONALFILE`, a download finish reports `NO_ERROR` to the
`DoneDownload` handler regardless of the actual error. -/
theorem C9_done_download_no_error :
    ∀ (silent : MediaChangeSensitivity) (error : DownloadError),
      (silent = .MEDIA_CHANGE_DISABLE ∨
        silent = .MEDIA_CHANGE_OPTIONALFILE) →
      downloadProgressFinish silent error true = some .NO_ERROR := by
  intro silent error h
  rcases h with h | h <;> subst h <;> rfl

/-- C9 witness: a real `IO` error is masked to `NO_ERROR` while probing
silently. -/
theorem C9_done_download_no_error_witness :
    downloadProgressFinish .MEDIA_CHANGE_DISABLE .IOERR true =
      some DownloadError.NO_ERROR :=
  C9_done_download_no_error .MEDIA_CHANGE_DISABLE .IOERR (Or.inl rfl)

/-- C10: a source-probe start always sets `_silent_probing` to
`MEDIA_CHANGE_DISABLE`, and a source-probe finish always sets it to
`MEDIA_CHANGE_FULL` whatever value it held before (in particular it does not
restore `MEDIA_CHANGE_OPTIONALFILE`). -/
theorem C10_probe_silent_probing :
    ∀ prev : MediaChangeSensitivity,
      probeSourceStartSilent prev = .MEDIA_CHANGE_DISABLE ∧
      probeSourceFinishSilent prev = .MEDIA_CHANGE_FULL ∧
      probeSourceFinishSilent (probeSourceStartSilent prev) =
        .MEDIA_CHANGE_FULL := by
  intro prev
  exact ⟨rfl, rfl, rfl⟩

/-- C1: evaluating `requestMedia` at a handler reply that is a fresh valid URL
(original URL `http://a/`, medium 1, reply `http://b/`) shows that the code
returns `CHANGE_URL` but records the redirect entry under the key
`(http://b/, 1)` — the reassigned `url` variable — so no entry exists for the
original key `(http://a/, 1)`; a reply that fails URL parsing yields
`RETRY`. -/
theorem C1_redirect_recorded_under_new_url :
    (requestMedia (fun s => some ⟨s⟩) .RETRY .MEDIA_CHANGE_FULL []
        ⟨"http://a/"⟩ 1 .NO_ERROR (some "http://b/")) =
      { action := .CHANGE_URL, handlerInvoked := true,
        redirects := [(⟨"http://b/"⟩, [(1, ⟨"http://b/"⟩)])],
        urlOut := ⟨"http://b/"⟩, devCurrent := none,
        reportUrl := some ⟨"http://a/"⟩ } ∧
    redirectMapFind
      (requestMedia (fun s => some ⟨s⟩) .RETRY .MEDIA_CHANGE_FULL []
        ⟨"http://a/"⟩ 1 .NO_ERROR (some "http://b/")).redirects
      ⟨"http://a/"⟩ = none ∧
    (requestMedia (fun _ => none) .RETRY .MEDIA_CHANGE_FULL []
        ⟨"http://a/"⟩ 1 .NO_ERROR (some "not a url")).action = .RETRY := by
  refine ⟨?_, ?_, ?_⟩ <;> decide

/-- C6 counterexample: the package-install problem adapter maps the
unrecognized reply `"X"` to the hardcoded `IGNORE`, not to the library
default (here `ABORT`, the zypp default for install problems), and logs
nothing about it. -/
theorem C6_install_unknown_reply_counterexample :
    (installPkgProblem (some "X") ProblemAction.ABORT
        RpmLevel.RPM_NODEPS_FORCE).action = .IGNORE ∧
    ProblemAction.IGNORE ≠ ProblemAction.ABORT ∧
    (installPkgProblem (some "X") ProblemAction.ABORT
        RpmLevel.RPM_NODEPS_FORCE).loggedUnknownReply = false := by
  decide

/-- C6 (amended): a problem reply that is not one of the adapter's own
recognized tokens is decoded to the hardcoded `IGNORE` without logging by the
package install and remove adapters (tokens `"R"`, `"C"`), falls back to the
library default unlogged in the package-download adapter (tokens `"R"`,
`"C"`, `"I"`), and falls back to the library default with a log message in
the generic download (tokens `"R"`, `"C"`, `"I"`), script-execution (tokens
`"A"`, `"I"`, `"R"`) and source-create (tokens `"ABORT"`, `"RETRY"`)
adapters. -/
theorem C6_problem_decoder_unknown_reply :
    ∀ (ret : String) (libdefault : ProblemAction),
      (ret ≠ "R" → ret ≠ "C" →
        (installPkgProblem (some ret) libdefault
          .RPM_NODEPS_FORCE).action = .IGNORE ∧
        (installPkgProblem (some ret) libdefault
          .RPM_NODEPS_FORCE).action ≠ ProblemAction.ABORT ∧
        (installPkgProblem (some ret) libdefault
          .RPM_NODEPS_FORCE).loggedUnknownReply = false) ∧
      (ret ≠ "R" → ret ≠ "C" →
        (removePkgProblem (some ret) libdefault).action = .IGNORE ∧
        (removePkgProblem (some ret) libdefault).action
          ≠ ProblemAction.ABORT ∧
        (removePkgProblem (some ret) libdefault).loggedUnknownReply
          = false) ∧
      (ret ≠ "R" → ret ≠ "C" → ret ≠ "I" →
        (downloadResolvableProblem (some ret) libdefault).action
          = libdefault ∧
        (downloadResolvableProblem (some ret) libdefault).loggedUnknownReply
          = false) ∧
      (ret ≠ "R" → ret ≠ "C" → ret ≠ "I" →
        (downloadProgressProblem (some ret) libdefault).action = libdefault ∧
        (downloadProgressProblem (some ret) libdefault).loggedUnknownReply
          = true) ∧
      (ret ≠ "A" → ret ≠ "I" → ret ≠ "R" →
        (scriptExecProblem (some ret) libdefault).action = libdefault ∧
        (scriptExecProblem (some ret) libdefault).loggedUnknownReply
          = true) ∧
      (ret ≠ "ABORT" → ret ≠ "RETRY" →
        (sourceCreateProblem (some ret) libdefault).action = libdefault ∧
        (sourceCreateProblem (some ret) libdefault).loggedUnknownReply
          = true) := by
  intro ret libdefault
  refine ⟨?_, ?_, ?_, ?_, ?_, ?_⟩
  · intro h1 h2
    simp [installPkgProblem, h1, h2]
  · intro h1 h2
    simp [removePkgProblem, h1, h2]
  · intro h1 h2 h3
    simp [downloadResolvableProblem, h1, h2, h3]
  · intro h1 h2 h3
    simp [downloadProgressProblem, h1, h2, h3]
  · intro h1 h2 h3
    simp [scriptExecProblem, h1, h2, h3]
  · intro h1 h2
    simp [sourceCreateProblem, h1, h2]

/-- C6 witness: the install adapter's decoding of the unrecognized reply
`"X"` with library default `RETRY`. -/
theorem C6_problem_decoder_unknown_reply_witness :
    (installPkgProblem (some "X") ProblemAction.RETRY
        RpmLevel.RPM_NODEPS_FORCE).action = .IGNORE ∧
    (installPkgProblem (some "X") ProblemAction.RETRY
        RpmLevel.RPM_NODEPS_FORCE).action ≠ ProblemAction.ABORT ∧
    (installPkgProblem (some "X") ProblemAction.RETRY
        RpmLevel.RPM_NODEPS_FORCE).loggedUnknownReply = false :=
  (C6_problem_decoder_unknown_reply "X" .RETRY).1 (by decide) (by decide)

/-- The pool returned by `ResolvableNeutral` is the per-item update mapped
over the input pool. -/
theorem resolvableNeutral_fst (pool : List PoolItem) (kind : ResKind)
    (name : String) (force : Bool) :
    (resolvableNeutral pool kind name force).1 =
      pool.map (neutralUpdate kind name force) := by
  induction pool with
  | nil => rfl
  | cons it rest ih =>
    by_cases h : neutralMatches kind name it = true <;>
      simp [resolvableNeutral, neutralUpdate, h, ih]

/-- C7: `ResolvableNeutral` updates exactly the pool items of the kind whose
name matches (all of the kind when the name is empty); with `force = false`
it clears the transact flag at the application authority (never touching a
USER-authority mark), and with `force = true` it clears the flag at the USER
authority as well, so every matching item ends up not transacting. -/
theorem C7_resolvable_neutral_authority :
    ∀ (pool : List PoolItem) (kind : ResKind) (name : String)
      (it : PoolItem),
      (resolvableNeutral pool kind name false).1 =
        pool.map (neutralUpdate kind name false) ∧
      (resolvableNeutral pool kind name true).1 =
        pool.map (neutralUpdate kind name true) ∧
      (neutralMatches kind name it = false →
        neutralUpdate kind name false it = it ∧
        neutralUpdate kind name true it = it) ∧
      (neutralMatches kind name it = true →
        (it.status.transactedBy = .USER →
          neutralUpdate kind name false it = it) ∧
        (it.status.transactedBy ≠ .USER →
          (neutralUpdate kind name false it).status.transact = false) ∧
        (neutralUpdate kind name true it).status.transact = false) := by
  intro pool kind name it
  refine ⟨resolvableNeutral_fst pool kind name false,
    resolvableNeutral_fst pool kind name true, ?_, ?_⟩
  · intro h
    constructor <;> simp [neutralUpdate, h]
  · intro h
    obtain ⟨k, n, t, b⟩ := it
    refine ⟨?_, ?_, ?_⟩
    · intro hb
      simp only at hb
      subst hb
      cases t <;>
        simp [neutralUpdate, h, neutralStep, resetTransact, whoWantsIt,
          TransactByValue.rank]
    · intro hb
      cases b <;> cases t <;>
        simp_all [neutralUpdate, neutralStep, resetTransact, whoWantsIt,
          TransactByValue.rank]
    · cases b <;> cases t <;>
        simp [neutralUpdate, h, neutralStep, resetTransact, whoWantsIt,
          TransactByValue.rank]

/-- C7 witness: a USER-transacted package survives `force = false` and is
cleared by `force = true`. -/
theorem C7_resolvable_neutral_authority_witness :
    neutralUpdate .package "foo" false
        ⟨.package, "foo", ⟨true, .USER⟩⟩ =
      ⟨.package, "foo", ⟨true, .USER⟩⟩ ∧
    (neutralUpdate .package "foo" true
        ⟨.package, "foo", ⟨true, .USER⟩⟩).status.transact = false := by
  have h := C7_resolvable_neutral_authority [] .package "foo"
    ⟨.package, "foo", ⟨true, .USER⟩⟩
  have h4 := h.2.2.2 (by decide)
  exact ⟨h4.1 (by decide), h4.2.2⟩

/-- C8 counterexample: the synthetic monotonic stream 0,1,…,100 delivered
with no time passage to a freshly started install-progress throttle invokes
the handler exactly 20 times, not `⌈100/5⌉ + 1 = 21` times. -/
theorem C8_progress_run_count_counterexample :
    installRunCount true (installPkgStartThrottle 0) 0 seq0to100 = 20 ∧
    installRunCount true (installPkgStartThrottle 0) 0 seq0to100 ≠
      100 / 5 + 1 := by
  decide

/-- C8 (amended): for the monotonic stream 0,1,…,100 with no time passage the
handler invocation count is exactly `⌈100/5⌉ = 20`: reports fire at
5,10,…,100, the mandatory 100% emission coincides with the 5%-rule emission
at 100, and the initial value 0 is suppressed. -/
theorem C8_progress_run_count :
    installRunCount true (installPkgStartThrottle 0) 0 seq0to100 = 100 / 5 := by
  decide

end PkgBindings
